import Mathlib

/-!
Shallow embedding of the copytrading core of the `polytrade` repository:
`src/utils/copytrading.py` (subscriptions, cursor/dedup, mirror executor,
poll loop) and the parts of `src/utils/polymarket_client.py` that it uses
(the `Trade` record, `Trade.from_data_api`, `fetch_wallet_trades`, and the
method surface of `PolymarketClient`).

Python `float` amounts are modelled as exact rationals (`ℚ`), Python `int`
timestamps / log indices as `Nat`, and Python `str` as `String` (Python
compares strings lexicographically by code point, as does Lean's `String`
order).  Fallible operations are modelled with `Option`/`Except`.
-/

namespace Polytrade

/-- A cursor `(timestamp, tx_hash, log_index)`: the position marker of the
last successfully mirrored trade (spec §3, `CopySubscription` fields
`last_seen_ts/last_seen_tx/last_seen_li` in `copytrading.py`). -/
abbrev Cursor : Type := Nat × String × Nat

/-- Strict total order on cursors from spec §3: compare `timestamp` first;
on tie compare `tx_hash` lexicographically; on tie compare `log_index`. -/
abbrev cursorLt (a b : Cursor) : Prop :=
  a.1 < b.1 ∨ (a.1 = b.1 ∧ (a.2.1 < b.2.1 ∨ (a.2.1 = b.2.1 ∧ a.2.2 < b.2.2)))

/-- Reflexive closure of `cursorLt`. -/
abbrev cursorLe (a b : Cursor) : Prop := cursorLt a b ∨ a = b

/-- `OrderSide` from `polymarket_client.py`: `BUY = 0`. -/
def OrderSide.BUY : Nat := 0

/-- `OrderSide` from `polymarket_client.py`: `SELL = 1`. -/
def OrderSide.SELL : Nat := 1

/-- The `Trade` dataclass of `polymarket_client.py` (lines 249-262). -/
structure Trade where
  tradeId : String
  marketId : String
  marketTitle : String
  tokenId : String
  side : Nat
  price : ℚ
  amount : ℚ
  value : ℚ
  timestamp : Nat
  tx_hash : String
  is_buy : Bool
deriving Repr, DecidableEq

/-- The position of a trade for cursor comparison: `(timestamp, tx_hash, 0)`
(the Data API does not provide a log index; `update_cursor` stores `0`). -/
def position (t : Trade) : Cursor := (t.timestamp, t.tx_hash, 0)

/-- The `CopySubscription` dataclass of `copytrading.py` (lines 24-47). -/
structure CopySubscription where
  user_id : Int
  target_wallet : String
  target_name : String
  scale_factor : ℚ
  enabled : Bool
  created_at : Nat
  last_seen_ts : Nat
  last_seen_tx : String
  last_seen_li : Nat
deriving Repr, DecidableEq

/-- `CopySubscription.cursor` (property, line 39-41). -/
def CopySubscription.cursor (s : CopySubscription) : Cursor :=
  (s.last_seen_ts, s.last_seen_tx, s.last_seen_li)

/-- `CopySubscription.update_cursor` (lines 43-47): sets the timestamp and
tx hash from the trade and the log index to `0`. -/
def CopySubscription.update_cursor (s : CopySubscription) (t : Trade) :
    CopySubscription :=
  { s with last_seen_ts := t.timestamp, last_seen_tx := t.tx_hash,
           last_seen_li := 0 }

/-- `CopytradingManager._is_newer` (copytrading.py lines 390-400): a trade is
newer than a cursor when its timestamp is larger, or the timestamps tie and
its tx hash is lexicographically larger; equal timestamp and tx hash is not
newer (log index is never consulted). -/
def is_newer (t : Trade) (c : Cursor) : Bool :=
  if t.timestamp ≠ c.1 then decide (t.timestamp > c.1)
  else if t.tx_hash ≠ c.2.1 then decide (t.tx_hash > c.2.1)
  else false

/-- The dedup engine from `_process_trades_for_subscription` (copytrading.py
lines 306-316): keep the trades `_is_newer` than the cursor (in fetch
order), then reverse the kept list. -/
def new_trades (trades : List Trade) (c : Cursor) : List Trade :=
  (trades.filter (fun t => is_newer t c)).reverse

/-- The `MirrorResult` dataclass of `copytrading.py` (lines 79-86). -/
structure MirrorResult where
  success : Bool
  trade : Trade
  subscription : CopySubscription
  error : Option String
  executed_amount : ℚ
deriving Repr, DecidableEq

/-- A user trading client as the mirror executor sees it.  The executor
performs the dynamic calls `client.buy(token_id, amount)` and
`client.sell(token_id, amount_usdc=amount)`; a client is modelled by those
two attributes.  `none` models a missing attribute (the dynamic lookup
raises `AttributeError`); `some f` models a present method whose call
either returns (`Except.ok`) or raises (`Except.error` with the exception
text).  The executor never inspects a returned value, so the result type is
`Unit`. -/
structure Client where
  buy : Option (String → ℚ → Except String Unit)
  sell : Option (String → ℚ → Except String Unit)

/-- The exception text of a failed dynamic attribute lookup on a
`PolymarketClient` (Python raises
`AttributeError: PolymarketClient object has no attribute <name>`). -/
def attributeErrorText (name : String) : String :=
  "AttributeError: PolymarketClient object has no attribute " ++ name

/-- The method surface of the `PolymarketClient` class
(`src/utils/polymarket_client.py`), the class returned by
`get_user_polymarket_client` (src/utils/user_manager.py lines 91-114),
which `bot.py` wires into the copytrading manager as `get_user_client`. -/
def polymarketClientMethods : List String :=
  ["_get_clob", "get_markets", "search_markets", "get_market",
   "get_orderbook", "get_latest_price", "get_my_balances",
   "get_my_positions", "get_my_trades", "get_my_pnl", "place_order",
   "buy_outcome", "buy_yes", "buy_no", "sell_position",
   "fetch_wallet_trades"]

/-- The `PolymarketClient` class as a mirror-executor client: it defines
neither a `buy` nor a `sell` method (see `polymarketClientMethods`), so
both dynamic lookups fail. -/
def polymarketClient : Client := { buy := none, sell := none }

/-- The outcome of the order-submission step of `_mirror_trade`
(copytrading.py lines 363-367): `client.buy(trade.token_id, scaled_value)`
for a buy, `client.sell(trade.token_id, amount_usdc=scaled_value)` for a
sell; a missing attribute raises `AttributeError`. -/
def submit_result (client : Client) (t : Trade) (scaled_value : ℚ) :
    Except String Unit :=
  if t.is_buy then
    match client.buy with
    | none => Except.error (attributeErrorText "buy")
    | some f => f t.tokenId scaled_value
  else
    match client.sell with
    | none => Except.error (attributeErrorText "sell")
    | some f => f t.tokenId scaled_value

/-- The benign-skip result of `_mirror_trade` (copytrading.py lines
355-361): success (so the cursor advances), explanatory note, zero
executed amount. -/
def skip_result (sub : CopySubscription) (t : Trade) : MirrorResult :=
  { success := true, trade := t, subscription := sub,
    error := some "Skipped (below minimum)", executed_amount := 0 }

/-- The submit branch of `_mirror_trade` (copytrading.py lines 363-388):
submit the order; on a normal return report success with
`executed_amount = scaled_value` (the return value of the client call is
not inspected); any exception is caught and reported as a failure with the
exception text and the default `executed_amount = 0`. -/
def mirror_submit (client : Client) (sub : CopySubscription) (t : Trade)
    (scaled_value : ℚ) : MirrorResult :=
  match submit_result client t scaled_value with
  | Except.ok _ =>
      { success := true, trade := t, subscription := sub,
        error := none, executed_amount := scaled_value }
  | Except.error e =>
      { success := false, trade := t, subscription := sub,
        error := some e, executed_amount := 0 }

/-- `CopytradingManager._mirror_trade` (copytrading.py lines 333-388):
resolve the client; if unavailable fail with "User client not available";
compute `scaled_value = trade.value * sub.scale_factor`; if
`scaled_value < 1.0` return the benign skip; otherwise submit the order
(`mirror_submit`). -/
def mirror_trade (get_user_client : Int → Option Client)
    (sub : CopySubscription) (t : Trade) : MirrorResult :=
  match get_user_client sub.user_id with
  | none =>
      { success := false, trade := t, subscription := sub,
        error := some "User client not available", executed_amount := 0 }
  | some client =>
      let scaled_value := t.value * sub.scale_factor
      if scaled_value < 1 then skip_result sub t
      else mirror_submit client sub t scaled_value

/-- One iteration of the per-trade loop of
`_process_trades_for_subscription` (copytrading.py lines 318-324): mirror
the trade; update the cursor only when the result reports success. -/
def process_step (get_user_client : Int → Option Client)
    (s : CopySubscription) (t : Trade) : CopySubscription × MirrorResult :=
  let r := mirror_trade get_user_client s t
  (if r.success then s.update_cursor t else s, r)

/-- `CopytradingManager._process_trades_for_subscription` (copytrading.py
lines 300-331): filter the fetched batch against the cursor, reverse to
oldest-first, then mirror each trade in order, updating the cursor after
each success.  Returns the final subscription state and the mirror results
in processing order. -/
def process_trades_for_subscription (get_user_client : Int → Option Client)
    (s : CopySubscription) (trades : List Trade) :
    CopySubscription × List MirrorResult :=
  (new_trades trades s.cursor).foldl
    (fun acc t =>
      let p := process_step get_user_client acc.1 t
      (p.1, acc.2 ++ [p.2]))
    (s, [])

/-- The successive subscription states produced by the per-trade loop, one
state after each processed trade (`step_history gc s l` runs the loop of
lines 318-324 over `l` and records each post-trade state). -/
def step_history (get_user_client : Int → Option Client)
    (s : CopySubscription) :
    List Trade → CopySubscription × List CopySubscription
  | [] => (s, [])
  | t :: rest =>
      let s1 := (process_step get_user_client s t).1
      let p := step_history get_user_client s1 rest
      (p.1, s1 :: p.2)

/-- The stored-cursor trajectory across a sequence of polled batches: for
each batch, run the dedup filter against the current cursor and then the
per-trade loop, recording the cursor after every processed trade. -/
def poll_history (get_user_client : Int → Option Client)
    (s : CopySubscription) : List (List Trade) → List Cursor
  | [] => []
  | batch :: rest =>
      let p := step_history get_user_client s (new_trades batch s.cursor)
      p.2.map CopySubscription.cursor ++ poll_history get_user_client p.1 rest

/-- A raw trade record from the Data API as consumed by
`Trade.from_data_api` (polymarket_client.py lines 264-283): a JSON object
whose fields may each be absent (`none`).  Only the fields that
`from_data_api` reads are modelled. -/
structure TradeData where
  id : Option String
  condition_id : Option String
  title : Option String
  market : Option String
  asset_id : Option String
  token_id : Option String
  side : Option String
  is_buy : Option Bool
  price : Option ℚ
  size : Option ℚ
  amount : Option ℚ
  timestamp : Option Nat
  created_at : Option Nat
  transaction_hash : Option String
  tx_hash : Option String
deriving Repr, DecidableEq

/-- Python `a or b` where `a` is an optional string (`None` and `""` are
falsy). -/
def orStr (a : Option String) (b : String) : String :=
  match a with
  | none => b
  | some s => if s = "" then b else s

/-- Python `a or b` where `a` is an optional number (`None` and `0` are
falsy). -/
def orQ (a : Option ℚ) (b : ℚ) : ℚ :=
  match a with
  | none => b
  | some q => if q = 0 then b else q

/-- Python `a or b` for optional integers. -/
def orNat (a : Option Nat) (b : Nat) : Nat :=
  match a with
  | none => b
  | some n => if n = 0 then b else n

/-- `Trade.from_data_api` (polymarket_client.py lines 264-283):
`is_buy = data.get("side") == "BUY" or data.get("is_buy", False)`;
`price = float(data.get("price", 0))`;
`amount = float(data.get("size") or data.get("amount", 0))`;
`value = price * amount`; token from `asset_id or token_id`; timestamp from
`timestamp or created_at`; tx hash from `transaction_hash or tx_hash`. -/
def Trade.from_data_api (data : TradeData) : Trade :=
  let is_buy := data.side == some "BUY" || data.is_buy.getD false
  let price := data.price.getD 0
  let amount := orQ data.size (data.amount.getD 0)
  { tradeId := data.id.getD ""
    marketId := data.condition_id.getD ""
    marketTitle := orStr data.title (data.market.getD "")
    tokenId := orStr data.asset_id (data.token_id.getD "")
    side := if is_buy then OrderSide.BUY else OrderSide.SELL
    price := price
    amount := amount
    value := price * amount
    timestamp := orNat data.timestamp (data.created_at.getD 0)
    tx_hash := orStr data.transaction_hash (data.tx_hash.getD "")
    is_buy := is_buy }

/-- The possible outcomes of the HTTP request made by
`fetch_wallet_trades`: the transport layer raised (connection error,
timeout, or a non-2xx status via `raise_for_status`), or the response body
parsed as a bare JSON array of trade records, or it parsed as some other
JSON value — in particular a wrapped object such as
`{"data": [...]}`, modelled as its list of fields whose values are arrays
of trade records. -/
inductive FetchResponse where
  | transportError (msg : String)
  | jsonList (items : List TradeData)
  | jsonObject (fields : List (String × List TradeData))
deriving Repr

/-- `PolymarketClient.fetch_wallet_trades` (polymarket_client.py lines
688-706) as a function of the request outcome: a raised transport error is
caught and yields `[]`; a bare array is parsed element-wise with
`Trade.from_data_api`; any non-list body (`isinstance(data, list)` false,
including a wrapped object) yields `[]`. -/
def fetch_wallet_trades (response : FetchResponse) : List Trade :=
  match response with
  | FetchResponse.transportError _ => []
  | FetchResponse.jsonList items => items.map Trade.from_data_api
  | FetchResponse.jsonObject _ => []

/-- The serialized form of a `CopySubscription` as a JSON-like object with
optional fields (`CopySubscription.to_dict` always writes all nine keys;
`from_dict` tolerates missing optional keys). -/
structure SubDict where
  user_id : Option Int
  target_wallet : Option String
  target_name : Option String
  scale_factor : Option ℚ
  enabled : Option Bool
  created_at : Option Nat
  last_seen_ts : Option Nat
  last_seen_tx : Option String
  last_seen_li : Option Nat
deriving Repr, DecidableEq

/-- `CopySubscription.to_dict` (copytrading.py lines 49-61): writes every
field under its own key. -/
def CopySubscription.to_dict (s : CopySubscription) : SubDict :=
  { user_id := some s.user_id
    target_wallet := some s.target_wallet
    target_name := some s.target_name
    scale_factor := some s.scale_factor
    enabled := some s.enabled
    created_at := some s.created_at
    last_seen_ts := some s.last_seen_ts
    last_seen_tx := some s.last_seen_tx
    last_seen_li := some s.last_seen_li }

/-- `CopySubscription.from_dict` (copytrading.py lines 63-76):
`data["user_id"]`, `data["target_wallet"]`, `data["target_name"]` raise
`KeyError` when absent (modelled as `none`); the remaining fields use
`data.get(key, default)` with defaults `1.0`, `True`, `0`, `0`, `""`,
`0`. -/
def CopySubscription.from_dict (data : SubDict) : Option CopySubscription :=
  match data.user_id, data.target_wallet, data.target_name with
  | some uid, some tw, some tn =>
      some { user_id := uid
             target_wallet := tw
             target_name := tn
             scale_factor := data.scale_factor.getD 1
             enabled := data.enabled.getD true
             created_at := data.created_at.getD 0
             last_seen_ts := data.last_seen_ts.getD 0
             last_seen_tx := data.last_seen_tx.getD ""
             last_seen_li := data.last_seen_li.getD 0 }
  | _, _, _ => none

/-- The in-memory subscription registry
`self.subscriptions : Dict[int, Dict[str, CopySubscription]]`
(copytrading.py line 123). -/
def Subscriptions : Type := Int → Option (String → Option CopySubscription)

/-- Look up the subscription stored for a `(user, wallet)` pair
(`self.subscriptions[user_id][wallet]`). -/
def lookup_subscription (subs : Subscriptions) (user_id : Int)
    (wallet : String) : Option CopySubscription :=
  match subs user_id with
  | none => none
  | some m => m wallet

/-- `CopytradingManager.subscribe` (copytrading.py lines 136-171):
lower-case the wallet, create the user's inner dict if missing, construct a
fresh `CopySubscription` (dataclass defaults: `enabled = True`,
`created_at = now`, cursor fields `0`, `""`, `0`) and store it under the
pair, overwriting any existing entry.  `now` stands for `int(time.time())`
at call time. -/
def subscribe (subs : Subscriptions) (user_id : Int)
    (wallet name : String) (scale_factor : ℚ) (now : Nat) :
    Subscriptions × CopySubscription :=
  let w := wallet.toLower
  let userMap := (subs user_id).getD (fun _ => none)
  let sub : CopySubscription :=
    { user_id := user_id, target_wallet := w, target_name := name,
      scale_factor := scale_factor, enabled := true, created_at := now,
      last_seen_ts := 0, last_seen_tx := "", last_seen_li := 0 }
  (fun u =>
     if u = user_id then
       some (fun x => if x = w then some sub else userMap x)
     else subs u,
   sub)

/-- The sleep performed at the end of each `_poll_loop` iteration
(copytrading.py lines 263-271): `await asyncio.sleep(interval)` — the loop
does not measure the time the cycle's work took, so the sleep duration is
the fixed interval, independent of `time_spent_this_cycle`. -/
def poll_loop_sleep (interval : ℚ) (_time_spent_this_cycle : ℚ) : ℚ :=
  interval

/-- Modelled from the spec (§4.4 step 5): the spec prescribes sleeping for
`max(minimum_sleep, poll_interval - time_spent_this_cycle)`. -/
def spec_poll_sleep (minimum_sleep interval time_spent_this_cycle : ℚ) : ℚ :=
  max minimum_sleep (interval - time_spent_this_cycle)

/-- `cursorLe` comparison of trade positions, used to phrase sortedness. -/
abbrev posLe (a b : Trade) : Prop := cursorLe (position a) (position b)

lemma cursorLe_refl (a : Cursor) : cursorLe a a := Or.inr rfl

lemma cursorLt_le {a b : Cursor} (h : cursorLt a b) : cursorLe a b := Or.inl h

/-- `_is_newer` decides exactly strict cursor order between the stored
cursor and the trade's position `(timestamp, tx_hash, 0)`: the log-index
tiebreak can never fire because the trade side of the comparison always
carries log index `0`. -/
lemma is_newer_iff (t : Trade) (c : Cursor) :
    is_newer t c = true ↔ cursorLt c (position t) := by
  obtain ⟨cts, ctx, cli⟩ := c
  unfold is_newer cursorLt position
  by_cases hts : t.timestamp = cts
  · by_cases htx : t.tx_hash = ctx
    · simp [hts, htx, lt_self_iff_false, Nat.not_lt_zero]
    · simp [hts, htx, lt_self_iff_false, Ne.symm htx]
  · simp [hts, Ne.symm hts]

/-- Membership in the dedup output: exactly the fetched trades whose
position is strictly greater than the cursor. -/
lemma mem_new_trades (trades : List Trade) (c : Cursor) (t : Trade) :
    t ∈ new_trades trades c ↔ t ∈ trades ∧ cursorLt c (position t) := by
  unfold new_trades
  rw [List.mem_reverse, List.mem_filter, is_newer_iff]

/-- The dedup output of a newest-first batch is oldest-first. -/
lemma new_trades_pairwise (trades : List Trade) (c : Cursor)
    (h : trades.Pairwise (fun a b => posLe b a)) :
    (new_trades trades c).Pairwise posLe := by
  unfold new_trades
  rw [List.pairwise_reverse]
  exact h.filter _

/-- A per-trade step either leaves the subscription unchanged or moves its
cursor to the trade's position. -/
lemma process_step_fst (gc : Int → Option Client) (s : CopySubscription)
    (t : Trade) :
    (process_step gc s t).1 = s ∨ (process_step gc s t).1 = s.update_cursor t := by
  unfold process_step
  by_cases h : (mirror_trade gc s t).success
  · exact Or.inr (by simp [h])
  · exact Or.inl (by simp [h])

lemma update_cursor_cursor (s : CopySubscription) (t : Trade) :
    (s.update_cursor t).cursor = position t := rfl

/-- A per-trade step never touches fields other than the cursor; in
particular, when the mirror result reports failure the subscription is
returned unchanged. -/
lemma process_step_of_not_success (gc : Int → Option Client)
    (s : CopySubscription) (t : Trade)
    (h : ((process_step gc s t).2).success = false) :
    (process_step gc s t).1 = s := by
  unfold process_step at h ⊢
  simp only at h
  simp [h]

/-- The final state of `step_history` agrees with the state folded by
`process_trades_for_subscription`. -/
lemma step_history_fst_eq_foldl (gc : Int → Option Client) :
    ∀ (l : List Trade) (s : CopySubscription) (rs : List MirrorResult),
      (l.foldl
        (fun acc t =>
          let p := process_step gc acc.1 t
          (p.1, acc.2 ++ [p.2]))
        (s, rs)).1 = (step_history gc s l).1 := by
  intro l
  induction l with
  | nil => intro s rs; rfl
  | cons t rest ih =>
      intro s rs
      simp only [List.foldl_cons, step_history]
      exact ih _ _

/-- The subscription state after `_process_trades_for_subscription` is the
final state of the recorded step history of the deduped batch. -/
lemma process_trades_fst (gc : Int → Option Client) (s : CopySubscription)
    (trades : List Trade) :
    (process_trades_for_subscription gc s trades).1
      = (step_history gc s (new_trades trades s.cursor)).1 := by
  unfold process_trades_for_subscription
  exact step_history_fst_eq_foldl gc _ s []

/-- Core monotonicity argument: running the per-trade loop over an
oldest-first list of trades that all lie at or above the current cursor
yields a non-decreasing cursor trajectory, ending at the final state's
cursor. -/
lemma step_history_chain (gc : Int → Option Client) :
    ∀ (l : List Trade) (s : CopySubscription),
      l.Pairwise posLe →
      (∀ t ∈ l, cursorLe s.cursor (position t)) →
      List.Chain' cursorLe
          (s.cursor :: (step_history gc s l).2.map CopySubscription.cursor)
        ∧ (s.cursor :: (step_history gc s l).2.map CopySubscription.cursor).getLast?
            = some (step_history gc s l).1.cursor := by
  intro l
  induction l with
  | nil =>
      intro s _ _
      exact ⟨List.chain'_singleton _, rfl⟩
  | cons t rest ih =>
      intro s hpw hbound
      have hhead : ∀ u ∈ rest, posLe t u := (List.pairwise_cons.mp hpw).1
      have hrest : rest.Pairwise posLe := (List.pairwise_cons.mp hpw).2
      have hst := process_step_fst gc s t
      have hcur : cursorLe s.cursor ((process_step gc s t).1).cursor := by
        rcases hst with h | h
        · rw [h]; exact cursorLe_refl _
        · rw [h, update_cursor_cursor]
          exact hbound t (List.mem_cons_self t rest)
      have hbound' : ∀ u ∈ rest,
          cursorLe ((process_step gc s t).1).cursor (position u) := by
        intro u hu
        rcases hst with h | h
        · rw [h]; exact hbound u (List.mem_cons_of_mem t hu)
        · rw [h, update_cursor_cursor]; exact hhead u hu
      obtain ⟨ihchain, ihlast⟩ := ih ((process_step gc s t).1) hrest hbound'
      constructor
      · simp only [step_history, List.map_cons]
        exact List.chain'_cons.mpr ⟨hcur, ihchain⟩
      · simp only [step_history, List.map_cons]
        rw [List.getLast?_cons_cons]
        exact ihlast

/-- Across any sequence of polled batches that are each sorted newest-first,
the stored-cursor trajectory is non-decreasing under the §3 order. -/
lemma poll_history_chain (gc : Int → Option Client) :
    ∀ (batches : List (List Trade)) (s : CopySubscription),
      (∀ b ∈ batches, b.Pairwise (fun a b' => posLe b' a)) →
      List.Chain' cursorLe (s.cursor :: poll_history gc s batches) := by
  intro batches
  induction batches with
  | nil => intro s _; exact List.chain'_singleton _
  | cons b rest ih =>
      intro s hb
      have hnl : (new_trades b s.cursor).Pairwise posLe :=
        new_trades_pairwise b s.cursor (hb b (List.mem_cons_self b rest))
      have hbound : ∀ t ∈ new_trades b s.cursor,
          cursorLe s.cursor (position t) := by
        intro t ht
        exact cursorLt_le ((mem_new_trades b s.cursor t).mp ht).2
      obtain ⟨hchain, hlast⟩ :=
        step_history_chain gc (new_trades b s.cursor) s hnl hbound
      have ihrest := ih ((step_history gc s (new_trades b s.cursor)).1)
        (fun b' hb' => hb b' (List.mem_cons_of_mem b hb'))
      show List.Chain' cursorLe
        (s.cursor ::
          ((step_history gc s (new_trades b s.cursor)).2.map
              CopySubscription.cursor
            ++ poll_history gc (step_history gc s (new_trades b s.cursor)).1
                rest))
      rw [← List.cons_append]
      refine List.Chain'.append hchain (List.chain'_cons'.mp ihrest).2 ?_
      intro x hx y hy
      rw [hlast] at hx
      simp only [Option.mem_def, Option.some_inj] at hx
      subst hx
      exact (List.chain'_cons'.mp ihrest).1 y hy

/-- The submit branch never produces the benign-skip result: on a normal
return the `error` field is `none`, on an exception `success` is `false`. -/
lemma mirror_submit_ne_skip (client : Client) (sub : CopySubscription)
    (t : Trade) (v : ℚ) : mirror_submit client sub t v ≠ skip_result sub t := by
  unfold mirror_submit
  cases hs : submit_result client t v with
  | ok u => intro h; simp [skip_result] at h
  | error e => intro h; simp [skip_result] at h

/- ------------------------------------------------------------------ -/
/- Claim theorems                                                     -/
/- ------------------------------------------------------------------ -/

/-- Sample subscription for claim C1: scale factor `0.25`. -/
def c1_sub : CopySubscription :=
  { user_id := 1, target_wallet := "0xaaa", target_name := "alice",
    scale_factor := 1/4, enabled := true, created_at := 0,
    last_seen_ts := 0, last_seen_tx := "", last_seen_li := 0 }

/-- Sample trade for claim C1: a BUY of 200 shares at price 0.50, notional
value `100.0`. -/
def c1_trade : Trade :=
  { tradeId := "t1", marketId := "m", marketTitle := "mt", tokenId := "tok",
    side := OrderSide.BUY, price := 1/2, amount := 200, value := 100,
    timestamp := 10, tx_hash := "h1", is_buy := true }

/-- Claim C1: the mirror executor evaluated at the failing input.  The
claim (and the spec) say a BUY trade of notional `100.0` at scale `0.25`
with an available client submits a market buy for `25.0` and returns
`success = true` with `executed_amount = 25.0`.  The repository's client
(`PolymarketClient`, the class `bot.py` wires in through
`get_user_polymarket_client`) has no `buy` or `sell` method, so the
dynamic call raises `AttributeError`, which `_mirror_trade` catches: the
returned result is a failure with the exception text and
`executed_amount = 0`, and no order is ever submitted. -/
theorem C1_mirror_raises_attribute_error :
    mirror_trade (fun _ => some polymarketClient) c1_sub c1_trade
      = { success := false, trade := c1_trade, subscription := c1_sub,
          error := some (attributeErrorText "buy"), executed_amount := 0 } := by
  norm_num [mirror_trade, mirror_submit, submit_result, polymarketClient,
    c1_sub, c1_trade]

/-- Claim C2 (amended): for every fetched batch and cursor the dedup output
contains exactly the trades whose position `(timestamp, tx_hash, 0)` is
strictly greater than the cursor under the §3 order; and whenever the
batch is sorted newest-first (as the gateway returns it), the output is
sorted ascending.  For an arbitrary (unsorted) batch the output need not
be sorted — see the counterexample. -/
theorem C2_dedup_exact_and_sorted :
    ∀ (trades : List Trade) (c : Cursor),
      (∀ t : Trade,
        t ∈ new_trades trades c ↔ t ∈ trades ∧ cursorLt c (position t))
      ∧ (trades.Pairwise (fun a b => posLe b a) →
          (new_trades trades c).Pairwise posLe) :=
  fun trades c =>
    ⟨mem_new_trades trades c, new_trades_pairwise trades c⟩

/-- Trade with position `(1, "a", 0)` for the C2 counterexample. -/
def c2_tA : Trade :=
  { tradeId := "a", marketId := "", marketTitle := "", tokenId := "tokA",
    side := OrderSide.BUY, price := 1, amount := 1, value := 1,
    timestamp := 1, tx_hash := "a", is_buy := true }

/-- Trade with position `(2, "b", 0)` for the C2 counterexample. -/
def c2_tB : Trade :=
  { tradeId := "b", marketId := "", marketTitle := "", tokenId := "tokB",
    side := OrderSide.BUY, price := 1, amount := 1, value := 1,
    timestamp := 2, tx_hash := "b", is_buy := true }

/-- Claim C2 counterexample: on the (oldest-first) fetched list
`[c2_tA, c2_tB]` with the zero cursor, the dedup output is
`[c2_tB, c2_tA]`, which is not sorted ascending — the claim's sortedness
part fails for arbitrary input lists. -/
theorem C2_counterexample :
    new_trades [c2_tA, c2_tB] (0, "", 0) = [c2_tB, c2_tA]
    ∧ ¬ posLe c2_tB c2_tA :=
  ⟨rfl, by decide⟩

/-- Claim C2 witness: a concrete newest-first batch whose dedup output is
sorted ascending. -/
theorem C2_witness :
    List.Pairwise (fun a b => posLe b a) [c2_tB, c2_tA]
    ∧ (new_trades [c2_tB, c2_tA] (0, "", 0)).Pairwise posLe :=
  ⟨by decide,
   (C2_dedup_exact_and_sorted [c2_tB, c2_tA] (0, "", 0)).2 (by decide)⟩

/-- Sample subscription for claim C3: scale factor `1`. -/
def c3_sub : CopySubscription :=
  { user_id := 1, target_wallet := "0xbbb", target_name := "bob",
    scale_factor := 1, enabled := true, created_at := 0,
    last_seen_ts := 0, last_seen_tx := "", last_seen_li := 0 }

/-- Trade at `(1, "a", 0)` with notional `100` — its mirror fails (the
submission raises). -/
def c3_t1 : Trade :=
  { tradeId := "1", marketId := "", marketTitle := "", tokenId := "tok",
    side := OrderSide.BUY, price := 1/2, amount := 200, value := 100,
    timestamp := 1, tx_hash := "a", is_buy := true }

/-- Trade at `(2, "b", 0)` with notional `0.5` — its mirror is a benign
skip, reported as success. -/
def c3_t2 : Trade :=
  { tradeId := "2", marketId := "", marketTitle := "", tokenId := "tok",
    side := OrderSide.BUY, price := 1/2, amount := 1, value := 1/2,
    timestamp := 2, tx_hash := "b", is_buy := true }

/-- Claim C3 counterexample: in a batch where the first processed trade
fails and a later one succeeds, the processing loop does advance the
cursor (to the successful trade's position), even though a returned result
has `success = false` — so a failed trade is not necessarily presented
again on the next cycle.  Here the batch `[c3_t2, c3_t1]` (newest-first)
is processed oldest-first: the mirror of `c3_t1` fails, the benign skip of
`c3_t2` succeeds, and the cursor moves from `(0, "", 0)` to
`(2, "b", 0)` — past the failed `c3_t1`. -/
theorem C3_counterexample :
    ((process_trades_for_subscription (fun _ => some polymarketClient)
        c3_sub [c3_t2, c3_t1]).2.map MirrorResult.success = [false, true])
    ∧ (process_trades_for_subscription (fun _ => some polymarketClient)
        c3_sub [c3_t2, c3_t1]).1.cursor = (2, "b", 0)
    ∧ c3_sub.cursor = (0, "", 0) := by
  refine ⟨?_, ?_, rfl⟩ <;>
    norm_num [process_trades_for_subscription, new_trades, is_newer,
      process_step, mirror_trade, mirror_submit, submit_result, skip_result,
      polymarketClient, c3_sub, c3_t1, c3_t2, CopySubscription.cursor,
      CopySubscription.update_cursor]

/-- Claim C3 (amended): any exception raised during order submission is
caught inside `_mirror_trade`, which returns `success = false`, `error`
equal to the exception text and `executed_amount = 0`; and a trade whose
mirror result reports failure causes no cursor update at its own step of
the processing loop (the cursor may still advance past it when a later
trade in the same batch succeeds). -/
theorem C3_submission_exceptions_caught :
    ∀ (gc : Int → Option Client) (sub : CopySubscription) (t : Trade)
      (client : Client) (e : String),
      gc sub.user_id = some client →
      ¬ (t.value * sub.scale_factor < 1) →
      submit_result client t (t.value * sub.scale_factor) = Except.error e →
      mirror_trade gc sub t
        = { success := false, trade := t, subscription := sub,
            error := some e, executed_amount := 0 }
      ∧ (∀ (s' : CopySubscription) (t' : Trade),
          ((process_step gc s' t').2).success = false →
          (process_step gc s' t').1 = s') := by
  intro gc sub t client e hgc hmin hsub
  refine ⟨?_, fun s' t' h => process_step_of_not_success gc s' t' h⟩
  unfold mirror_trade
  rw [hgc]
  simp only [if_neg hmin]
  unfold mirror_submit
  rw [hsub]

/-- Claim C3 witness: the failing mirror of `c3_t1` with the repository's
client. -/
theorem C3_witness :
    ((fun (_ : Int) => some polymarketClient) c3_sub.user_id
        = some polymarketClient)
    ∧ ¬ (c3_t1.value * c3_sub.scale_factor < 1)
    ∧ mirror_trade (fun _ => some polymarketClient) c3_sub c3_t1
        = { success := false, trade := c3_t1, subscription := c3_sub,
            error := some (attributeErrorText "buy"), executed_amount := 0 } :=
  ⟨rfl, by norm_num [c3_t1, c3_sub],
   (C3_submission_exceptions_caught (fun _ => some polymarketClient) c3_sub
      c3_t1 polymarketClient (attributeErrorText "buy") rfl
      (by norm_num [c3_t1, c3_sub]) rfl).1⟩

/-- Sample subscription for claim C4: scale factor `1`. -/
def c4_sub : CopySubscription :=
  { user_id := 7, target_wallet := "0xccc", target_name := "carol",
    scale_factor := 1, enabled := true, created_at := 0,
    last_seen_ts := 0, last_seen_tx := "", last_seen_li := 0 }

/-- Sample trade for claim C4: notional value `0.5`, below the `$1`
floor. -/
def c4_t : Trade :=
  { tradeId := "4", marketId := "", marketTitle := "", tokenId := "tok",
    side := OrderSide.BUY, price := 1/2, amount := 1, value := 1/2,
    timestamp := 4, tx_hash := "d", is_buy := true }

/-- Claim C4 counterexample: in the code the client lookup happens BEFORE
the minimum check (the spec's step 3 before its step 2).  With no
available client, a sub-minimum trade is reported as a failure
("User client not available"), not as the claimed benign skip with
`success = true`. -/
theorem C4_counterexample :
    c4_t.value * c4_sub.scale_factor < 1
    ∧ mirror_trade (fun _ => none) c4_sub c4_t
        = { success := false, trade := c4_t, subscription := c4_sub,
            error := some "User client not available",
            executed_amount := 0 } :=
  ⟨by norm_num [c4_t, c4_sub], rfl⟩

/-- Claim C4 (amended): the client check precedes the minimum check; for
every trade and subscription WITH an available client whose scaled
notional is below `1.0`, the executor returns the benign skip
(`success = true`, `executed_amount = 0`, explanatory note), so the cursor
advances; with no client it fails regardless of size. -/
theorem C4_benign_skip_below_minimum :
    ∀ (gc : Int → Option Client) (sub : CopySubscription) (t : Trade)
      (client : Client),
      gc sub.user_id = some client →
      t.value * sub.scale_factor < 1 →
      mirror_trade gc sub t = skip_result sub t := by
  intro gc sub t client hgc hlt
  unfold mirror_trade
  rw [hgc]
  simp only [if_pos hlt]

/-- Claim C4 witness: the sub-minimum trade with an available client is a
benign skip. -/
theorem C4_witness :
    ((fun (_ : Int) => some polymarketClient) c4_sub.user_id
        = some polymarketClient)
    ∧ c4_t.value * c4_sub.scale_factor < 1
    ∧ mirror_trade (fun _ => some polymarketClient) c4_sub c4_t
        = skip_result c4_sub c4_t :=
  ⟨rfl, by norm_num [c4_t, c4_sub],
   C4_benign_skip_below_minimum (fun _ => some polymarketClient) c4_sub c4_t
     polymarketClient rfl (by norm_num [c4_t, c4_sub])⟩

/-- Claim C5 (amended): cursor updates happen only for trades whose mirror
result reports success, and across any sequence of polled batches that are
each sorted newest-first (as the gateway returns them) the stored cursor
trajectory is monotonically non-decreasing under the §3 order.  For an
unsorted batch the cursor can move backwards — see the counterexample. -/
theorem C5_cursor_monotone :
    ∀ (gc : Int → Option Client) (s : CopySubscription)
      (batches : List (List Trade)),
      (∀ b ∈ batches, b.Pairwise (fun a b' => posLe b' a)) →
      List.Chain' cursorLe (s.cursor :: poll_history gc s batches)
      ∧ (∀ (s' : CopySubscription) (t : Trade),
          ((process_step gc s' t).2).success = false →
          (process_step gc s' t).1 = s')
      ∧ (∀ (s' : CopySubscription) (trades : List Trade),
          (process_trades_for_subscription gc s' trades).1
            = (step_history gc s' (new_trades trades s'.cursor)).1) :=
  fun gc s batches h =>
    ⟨poll_history_chain gc batches s h,
     fun s' t h' => process_step_of_not_success gc s' t h',
     fun s' trades => process_trades_fst gc s' trades⟩

/-- Sample subscription for claim C5. -/
def c5_sub : CopySubscription :=
  { user_id := 2, target_wallet := "0xddd", target_name := "dave",
    scale_factor := 1, enabled := true, created_at := 0,
    last_seen_ts := 0, last_seen_tx := "", last_seen_li := 0 }

/-- Sub-minimum trade at `(3, "y", 0)` (the mirror is a cursor-advancing
benign skip). -/
def c5_t3 : Trade :=
  { tradeId := "3", marketId := "", marketTitle := "", tokenId := "tok",
    side := OrderSide.BUY, price := 1/2, amount := 1, value := 1/2,
    timestamp := 3, tx_hash := "y", is_buy := true }

/-- Sub-minimum trade at `(5, "x", 0)` (the mirror is a cursor-advancing
benign skip). -/
def c5_t5 : Trade :=
  { tradeId := "5", marketId := "", marketTitle := "", tokenId := "tok",
    side := OrderSide.BUY, price := 1/2, amount := 1, value := 1/2,
    timestamp := 5, tx_hash := "x", is_buy := true }

/-- Claim C5 counterexample: an oldest-first batch `[c5_t3, c5_t5]` is
reversed by the dedup engine and processed as `[c5_t5, c5_t3]`; both
mirrors succeed (benign skips), so the stored cursor goes
`(0,"",0) → (5,"x",0) → (3,"y",0)`: the second update moves the cursor
BACKWARDS, refuting unconditional monotonicity over every processed
batch. -/
theorem C5_counterexample :
    poll_history (fun _ => some polymarketClient) c5_sub [[c5_t3, c5_t5]]
      = [(5, "x", 0), (3, "y", 0)]
    ∧ ¬ cursorLe (5, "x", 0) (3, "y", 0) := by
  refine ⟨?_, by decide⟩
  norm_num [poll_history, step_history, new_trades, is_newer, process_step,
    mirror_trade, skip_result, c5_sub, c5_t3, c5_t5,
    CopySubscription.cursor, CopySubscription.update_cursor, position]

/-- Claim C5 witness: with the same two trades fetched newest-first, the
cursor trajectory is non-decreasing. -/
theorem C5_witness :
    (∀ b ∈ [[c5_t5, c5_t3]], List.Pairwise (fun a b' => posLe b' a) b)
    ∧ List.Chain' cursorLe
        (c5_sub.cursor ::
          poll_history (fun _ => some polymarketClient) c5_sub
            [[c5_t5, c5_t3]]) := by
  have h : ∀ b ∈ [[c5_t5, c5_t3]], List.Pairwise (fun a b' => posLe b' a) b := by
    intro b hb
    rw [List.mem_singleton] at hb
    subst hb
    decide
  exact ⟨h,
    (C5_cursor_monotone (fun _ => some polymarketClient) c5_sub
      [[c5_t5, c5_t3]] h).1⟩

/-- Claim C6 (amended): the trade-fetch adapter never raises: a transport
error yields `[]`, a bare JSON array is parsed element-wise with
`Trade.from_data_api`, and any non-array body — including a wrapped
object such as a JSON object with the trades under a key — yields `[]`
rather than the contained trades. -/
theorem C6_fetch_shapes :
    (∀ msg, fetch_wallet_trades (FetchResponse.transportError msg) = [])
    ∧ (∀ items, fetch_wallet_trades (FetchResponse.jsonList items)
        = items.map Trade.from_data_api)
    ∧ (∀ fields, fetch_wallet_trades (FetchResponse.jsonObject fields) = []) :=
  ⟨fun _ => rfl, fun _ => rfl, fun _ => rfl⟩

/-- A raw trade record for the C6 counterexample. -/
def c6_item : TradeData :=
  { id := some "t9", condition_id := some "c9", title := some "m9",
    market := none, asset_id := some "a9", token_id := none,
    side := some "BUY", is_buy := none, price := some 1, size := some 2,
    amount := none, timestamp := some 7, created_at := none,
    transaction_hash := some "h9", tx_hash := none }

/-- Claim C6 counterexample: on a wrapped object response containing one
trade record, `fetch_wallet_trades` returns `[]`, not the contained
trades — the claimed normalization of the wrapped shape does not
happen. -/
theorem C6_counterexample :
    fetch_wallet_trades (FetchResponse.jsonObject [("data", [c6_item])]) = []
    ∧ fetch_wallet_trades (FetchResponse.jsonObject [("data", [c6_item])])
        ≠ [Trade.from_data_api c6_item] :=
  ⟨rfl, fun h => by simp [fetch_wallet_trades] at h⟩

/-- Claim C7: re-subscribing to an existing `(user, lower-cased wallet)`
pair overwrites the stored subscription: the new entry carries the newly
supplied name and scale factor and the zero cursor `(0, "", 0)`,
regardless of the previous subscription's cursor. -/
theorem C7_resubscribe_overwrites :
    ∀ (subs : Subscriptions) (u : Int) (w n : String) (sc : ℚ) (now : Nat)
      (old : CopySubscription),
      lookup_subscription subs u w.toLower = some old →
      lookup_subscription (subscribe subs u w n sc now).1 u w.toLower
        = some { user_id := u, target_wallet := w.toLower, target_name := n,
                 scale_factor := sc, enabled := true, created_at := now,
                 last_seen_ts := 0, last_seen_tx := "", last_seen_li := 0 } := by
  intro subs u w n sc now old _
  unfold lookup_subscription subscribe
  simp

/-- Prior subscription for the C7 witness, with a non-zero cursor. -/
def c7_old : CopySubscription :=
  { user_id := 1, target_wallet := "0xab", target_name := "old",
    scale_factor := 1/2, enabled := true, created_at := 3,
    last_seen_ts := 7, last_seen_tx := "x", last_seen_li := 2 }

/-- Registry for the C7 witness holding `c7_old` for user `1`. -/
def c7_prev : Subscriptions :=
  fun u => if u = 1 then some (fun _ => some c7_old) else none

/-- Claim C7 witness: re-subscribing user 1 to the same wallet replaces
name, scale factor and cursor. -/
theorem C7_witness :
    lookup_subscription c7_prev 1 ("0xAb".toLower) = some c7_old
    ∧ lookup_subscription (subscribe c7_prev 1 "0xAb" "new" (1/4) 99).1 1
        ("0xAb".toLower)
        = some { user_id := 1, target_wallet := "0xAb".toLower,
                 target_name := "new", scale_factor := 1/4, enabled := true,
                 created_at := 99, last_seen_ts := 0, last_seen_tx := "",
                 last_seen_li := 0 } :=
  ⟨rfl, C7_resubscribe_overwrites c7_prev 1 "0xAb" "new" (1/4) 99 c7_old rfl⟩

/-- Claim C8 (amended): `_poll_loop` does not measure the time a cycle's
work took; after each cycle it sleeps for the fixed poll interval,
independent of `time_spent_this_cycle` (so the cycle cadence is work time
plus interval, not constant). -/
theorem C8_fixed_interval_sleep :
    ∀ interval time_spent_this_cycle : ℚ,
      poll_loop_sleep interval time_spent_this_cycle = interval :=
  fun _ _ => rfl

/-- Claim C8 counterexample: at `poll_interval = 2`,
`time_spent_this_cycle = 1` and `minimum_sleep = 0`, the spec's formula
gives a sleep of `1`, but the loop sleeps `2`. -/
theorem C8_counterexample :
    poll_loop_sleep 2 1 ≠ spec_poll_sleep 0 2 1 := by
  norm_num [poll_loop_sleep, spec_poll_sleep]

/-- Claim C9: serialization round-trips: `from_dict (to_dict s)`
reconstructs every field of `s`. -/
theorem C9_to_dict_from_dict_roundtrip :
    ∀ s : CopySubscription,
      CopySubscription.from_dict s.to_dict = some s :=
  fun _ => rfl

/-- Claim C10: the minimum-notional comparison is strict (`< 1.0`): with
an available client, the benign-skip result is returned exactly when the
scaled notional is strictly below `1.0`; at a scaled notional of exactly
`1.0` the executor proceeds to the order-submission branch. -/
theorem C10_minimum_check_strict :
    ∀ (gc : Int → Option Client) (sub : CopySubscription) (t : Trade)
      (client : Client),
      gc sub.user_id = some client →
      (mirror_trade gc sub t = skip_result sub t
          ↔ t.value * sub.scale_factor < 1)
      ∧ (t.value * sub.scale_factor = 1 →
          mirror_trade gc sub t
            = mirror_submit client sub t (t.value * sub.scale_factor)) := by
  intro gc sub t client hgc
  constructor
  · constructor
    · intro h
      by_contra hlt
      rw [mirror_trade, hgc] at h
      simp only [if_neg hlt] at h
      exact mirror_submit_ne_skip client sub t _ h
    · intro hlt
      rw [mirror_trade, hgc]
      simp only [if_pos hlt]
  · intro heq
    rw [mirror_trade, hgc]
    rw [heq]
    simp only [lt_self_iff_false, if_false]

/-- Subscription for the C10 witness: scale factor `1`. -/
def c10_sub : CopySubscription :=
  { user_id := 3, target_wallet := "0xeee", target_name := "erin",
    scale_factor := 1, enabled := true, created_at := 0,
    last_seen_ts := 0, last_seen_tx := "", last_seen_li := 0 }

/-- Trade for the C10 witness: notional value exactly `1.0`. -/
def c10_t : Trade :=
  { tradeId := "10", marketId := "", marketTitle := "", tokenId := "tok",
    side := OrderSide.BUY, price := 1/2, amount := 2, value := 1,
    timestamp := 6, tx_hash := "e", is_buy := true }

/-- Claim C10 witness: at scaled notional exactly `1.0` the executor takes
the submission branch, not the skip. -/
theorem C10_witness :
    ((fun (_ : Int) => some polymarketClient) c10_sub.user_id
        = some polymarketClient)
    ∧ c10_t.value * c10_sub.scale_factor = 1
    ∧ mirror_trade (fun _ => some polymarketClient) c10_sub c10_t
        = mirror_submit polymarketClient c10_sub c10_t
            (c10_t.value * c10_sub.scale_factor)
    ∧ (mirror_trade (fun _ => some polymarketClient) c10_sub c10_t
          = skip_result c10_sub c10_t
        ↔ c10_t.value * c10_sub.scale_factor < 1) :=
  ⟨rfl, by norm_num [c10_t, c10_sub],
   (C10_minimum_check_strict (fun _ => some polymarketClient) c10_sub c10_t
      polymarketClient rfl).2 (by norm_num [c10_t, c10_sub]),
   (C10_minimum_check_strict (fun _ => some polymarketClient) c10_sub c10_t
      polymarketClient rfl).1⟩

end Polytrade
